import Mathlib

/-!
Shallow embedding of the cohort-percentile / fitness-summary engine of the
FitFuture tracker (src/main.py, with the auxiliary standalone script
src/demo_fitfuture.py).

Modelling choices:
* Python floats are modelled by `ℚ`: every operation the engine performs
  (`+`, `*`, `/`, `min`, order comparisons) is exact on the inputs involved.
* A pandas cell that may be missing (`NaN`/`None`) or textual is modelled by
  `Entry`; `pd.notnull` is `notnull`, and Python's `float(x)` conversion is
  `floatOf` (it raises `ValueError` on non-numeric text, which we model with
  `Except`).
* Calendar dates are modelled by their day number (an `Int`); the SQLite
  comparison `workout_date >= window` is a *text* comparison, which agrees
  with day-number order on well-formed ISO dates.  A stored date that is not
  parseable carries instead the boolean outcome of that text comparison
  against the window bound (constructor `StoredDate.bad`), because such a
  row can still pass the SQL filter (e.g. "not-a-date" >= "2026-09-12"
  lexicographically) and then makes `datetime.fromisoformat` raise.
* Python exceptions are modelled by `Except PyError`.
-/

/-- A Python exception escaping the engine. -/
inductive PyError where
  | attributeError : PyError
  | valueError : PyError
deriving DecidableEq, Repr

/-- One cell of a numeric pandas column: missing (`NaN`/`None`), an actual
number, or text (carrying `some q` when Python's `float` can parse it,
`none` when `float` raises `ValueError`). -/
inductive Entry where
  | null : Entry
  | num : ℚ → Entry
  | text : Option ℚ → Entry
deriving DecidableEq, Repr

/-- Python's `pd.notnull(x)`: `False` exactly on missing values. -/
def notnull : Entry → Bool
  | Entry.null => false
  | Entry.num _ => true
  | Entry.text _ => true

/-- Python `float(x)`: succeeds on numbers and numeric strings, raises
`ValueError` on non-numeric text.  (On `None` it would raise `TypeError`;
that entry kind is filtered out by `notnull` before conversion in
`percentile_rank`, so we reuse `valueError` for the unreachable case.) -/
def floatOf : Entry → Except PyError ℚ
  | Entry.null => Except.error PyError.valueError
  | Entry.num q => Except.ok q
  | Entry.text none => Except.error PyError.valueError
  | Entry.text (some q) => Except.ok q

/-- A Python list comprehension `[f(x) for x in l]` where `f` may raise:
the first exception aborts the whole comprehension. -/
def mapExcept (f : α → Except PyError β) : List α → Except PyError (List β)
  | [] => Except.ok []
  | a :: t =>
    match f a with
    | Except.error e => Except.error e
    | Except.ok b =>
      match mapExcept f t with
      | Except.error e => Except.error e
      | Except.ok bs => Except.ok (b :: bs)

/-- The line `series = [float(x) for x in series if pd.notnull(x)]` from
`percentile_rank` (src/main.py line 152): drop missing cells, then convert
each remaining cell with `float`, propagating the exception if one raises. -/
def cleanSeries (series : List Entry) : Except PyError (List ℚ) :=
  mapExcept floatOf (series.filter notnull)

/-- The function `percentile_rank(series, value)` (src/main.py lines 151-156):

    series = [float(x) for x in series if pd.notnull(x)]
    if not series: return None
    count = sum(1 for x in series if x <= value)
    return 100 * count / len(series)
-/
def percentile_rank (series : List Entry) (value : ℚ) :
    Except PyError (Option ℚ) :=
  match cleanSeries series with
  | Except.error e => Except.error e
  | Except.ok cleaned =>
    if cleaned.isEmpty then Except.ok none
    else
      Except.ok (some (100 * ((cleaned.filter (fun x => decide (x ≤ value))).length : ℚ) /
        (cleaned.length : ℚ)))

/-- A row of the `user_profiles` table as `get_user_profile` returns it:
`age` and `gender` are nullable columns. -/
structure Profile where
  age : Option Int
  gender : Option String
deriving DecidableEq, Repr

/-- The stored `workout_date` TEXT of a `workout_sessions` row: either a
well-formed ISO date (identified with its day number) or unparseable text,
for which we record the outcome of the SQL text comparison against the
30-day window bound. -/
inductive StoredDate where
  | iso : Int → StoredDate
  | bad : Bool → StoredDate
deriving DecidableEq, Repr

/-- A `workout_sessions` row restricted to the columns the engine reads
(`total_duration_minutes` is nullable). -/
structure Session where
  workout_date : StoredDate
  total_duration_minutes : Option ℚ
deriving DecidableEq, Repr

/-- The SQL predicate `workout_date >= window` where
`window = (date.today() - timedelta(days=30)).isoformat()`: day-number
order on well-formed dates, the recorded text-comparison outcome otherwise. -/
def sqlDateGe (sd : StoredDate) (window : Int) : Bool :=
  match sd with
  | StoredDate.iso d => decide (window ≤ d)
  | StoredDate.bad ge => ge

/-- The parse `datetime.fromisoformat(r["workout_date"]).date()` (src/main.py line
182): raises `ValueError` on unparseable text. -/
def parseISO : StoredDate → Except PyError Int
  | StoredDate.iso d => Except.ok d
  | StoredDate.bad _ => Except.error PyError.valueError

/-- A reference-dataset row restricted to the columns the engine reads: an
age, the stored gender text, and the one metric column used for the
percentile comparison (`exercise_minutes` for hf365, `Session_Duration
(hours)` for gym; nullable). -/
structure DataRow where
  age : ℚ
  gender : String
  metric : Option ℚ
deriving DecidableEq, Repr

/-- View an optional numeric cell as an `Entry` for `percentile_rank`. -/
def entryOf : Option ℚ → Entry
  | none => Entry.null
  | some q => Entry.num q

/-- The pandas gender test
`df["gender"].astype(str).str[0].str.upper() == gender`: take the first
character of the stored text, upper-case it, compare the resulting
one-character string with the probe string.  An empty stored text has no
first character (`.str[0]` yields `NaN`, which compares unequal). -/
def genderMatches (stored : String) (g : String) : Bool :=
  match stored.data with
  | [] => false
  | c :: _ => String.mk [c.toUpper] == g

/-- The cohort filter the engine applies to both datasets
(src/main.py lines 211-214 and 224-227):
`df[(df["age"].between(age-2, age+2)) & (gender test)]`
(`Series.between` is inclusive on both ends). -/
def selectCohort (df : List DataRow) (a : Int) (g : String) : List DataRow :=
  df.filter (fun row =>
    (decide ((a : ℚ) - 2 ≤ row.age) && decide (row.age ≤ (a : ℚ) + 2)) &&
      genderMatches row.gender g)

/-- The result dict of `compute_fitness_summary`.  Every key except
`has_data` is optional (absent until assigned); the percentile keys hold an
`Option ℚ` because `percentile_rank` itself may return `None`. -/
structure FitnessSummary where
  has_data : Bool
  total_minutes_30d : Option ℚ
  avg_duration : Option ℚ
  weekly_minutes : Option ℚ
  current_score : Option ℚ
  projected_score : Option ℚ
  cohort_label : Option String
  hf365_percentile : Option (Option ℚ)
  gym_percentile : Option (Option ℚ)
deriving DecidableEq, Repr

/-- The dict after `result["has_data"] = False`. -/
def emptySummary : FitnessSummary :=
  { has_data := false, total_minutes_30d := none, avg_duration := none,
    weekly_minutes := none, current_score := none, projected_score := none,
    cohort_label := none, hf365_percentile := none, gym_percentile := none }

/-- The WHERE clause of the workout query (src/main.py lines 168-172):
`workout_date >= window AND total_duration_minutes IS NOT NULL`, with
`window = today - 30 days`.  (The `user_id = ?` conjunct is modelled by
passing only this user's sessions.) -/
def keepRow (today : Int) (s : Session) : Bool :=
  sqlDateGe s.workout_date (today - 30) && s.total_duration_minutes.isSome

/-- The line `score = min(10, weekly / 30)` (src/main.py line 186). -/
def current_score_of (weekly : ℚ) : ℚ := min 10 (weekly / 30)

/-- The line `proj = min(10, score + 1)` (src/main.py line 187). -/
def projected_score_of (score : ℚ) : ℚ := min 10 (score + 1)

/-- Python `max(l)` on a non-empty list (the engine only evaluates it on
non-empty `dates`). -/
def pyMax (l : List Int) : Int := l.foldl max (l.headD 0)

/-- Python `min(l)` on a non-empty list. -/
def pyMin (l : List Int) : Int := l.foldl min (l.headD 0)

/-- The line `span = max((max(dates) - min(dates)).days + 1, 1)` (src/main.py line
183). -/
def spanOf (dates : List Int) : Int := max (pyMax dates - pyMin dates + 1) 1

/-- The history part of `compute_fitness_summary` (src/main.py lines
163-198): filter the sessions with the SQL WHERE clause; if any remain, sum
the durations, average them, parse every date (`ValueError` propagates),
take the observed span floored at 1, extrapolate a weekly volume and derive
the two scores; otherwise report `has_data = False`. -/
def base_summary (today : Int) (sessions : List Session) :
    Except PyError FitnessSummary :=
  match sessions.filter (keepRow today) with
  | [] => Except.ok emptySummary
  | r :: rs =>
    let rows := r :: rs
    let durations := rows.filterMap (fun s => s.total_duration_minutes)
    let total := durations.sum
    let avg := total / (durations.length : ℚ)
    match mapExcept (fun s => parseISO s.workout_date) rows with
    | Except.error e => Except.error e
    | Except.ok dates =>
      let span : Int := spanOf dates
      let weekly := total * 7 / (span : ℚ)
      let score := current_score_of weekly
      let proj := projected_score_of score
      Except.ok
        { has_data := true, total_minutes_30d := some total,
          avg_duration := some avg, weekly_minutes := some weekly,
          current_score := some score, projected_score := some proj,
          cohort_label := none, hf365_percentile := none, gym_percentile := none }

/-- The label `f"{age-2}–{age+2}yo {('males' if gender=='M' else 'females')}"`
(src/main.py line 206). -/
def labelFor (a : Int) (g : String) : String :=
  toString (a - 2) ++ "–" ++ toString (a + 2) ++ "yo " ++
    (if g = "M" then "males" else "females")

/-- The HF365 comparison (src/main.py lines 209-219): if the dataframe is
loaded, select the cohort; if it is non-empty, compare the daily equivalent
`weekly / 7` against its `exercise_minutes` column. -/
def hfStage (a : Int) (g : String) (weekly : ℚ)
    (hf365 : Option (List DataRow)) (r1 : FitnessSummary) :
    Except PyError FitnessSummary :=
  match hf365 with
  | none => Except.ok r1
  | some df =>
    let cohort := selectCohort df a g
    if cohort.isEmpty then Except.ok r1
    else
      match percentile_rank (cohort.map (fun row => entryOf row.metric))
          (weekly / 7) with
      | Except.error e => Except.error e
      | Except.ok pct => Except.ok { r1 with hf365_percentile := some pct }

/-- The gym comparison (src/main.py lines 222-231): if the dataframe is
loaded, select the cohort; if it is non-empty and `result.get("avg_duration")`
is truthy, convert `Session_Duration (hours)` to minutes and compare the
user's average session duration against it. -/
def gymStage (a : Int) (g : String) (gym : Option (List DataRow))
    (r2 : FitnessSummary) : Except PyError FitnessSummary :=
  match gym with
  | none => Except.ok r2
  | some df =>
    let cohort := selectCohort df a g
    match r2.avg_duration with
    | some avgd =>
      if !cohort.isEmpty && avgd != 0 then
        match percentile_rank
            (cohort.map (fun row => entryOf (row.metric.map (fun h => h * 60))))
            avgd with
        | Except.error e => Except.error e
        | Except.ok pct => Except.ok { r2 with gym_percentile := some pct }
      else Except.ok r2
    | none => Except.ok r2

/-- The cohort part of `compute_fitness_summary` (src/main.py lines
202-231).  The Python guard `if age and gender and
result.get("weekly_minutes"):` is truthiness of the three values: present
and nonzero / non-empty.  Inside it, the label is set, then the HF365 and
gym comparisons run in turn on the growing result dict. -/
def cohort_stage (p : Profile) (hf365 gym : Option (List DataRow))
    (result : FitnessSummary) : Except PyError FitnessSummary :=
  match p.age, p.gender, result.weekly_minutes with
  | some a, some g, some weekly =>
    if a != 0 && g != "" && weekly != 0 then
      let r1 := { result with cohort_label := some (labelFor a g) }
      match hfStage a g weekly hf365 r1 with
      | Except.error e => Except.error e
      | Except.ok r2 => gymStage a g gym r2
    else Except.ok result
  | _, _, _ => Except.ok result

/-- The function `compute_fitness_summary(user_id)` (src/main.py lines 159-233), with
the I/O collaborators made explicit: the profile row (or its absence),
today's date, this user's session rows, and the two loaded dataframes (or
their absence).  A `ValueError` from date parsing propagates first (line
182 precedes line 202); then `age = profile.get("age")` raises
`AttributeError` when `get_user_profile` returned `None`. -/
def compute_fitness_summary (profile : Option Profile) (today : Int)
    (sessions : List Session) (hf365 gym : Option (List DataRow)) :
    Except PyError FitnessSummary :=
  match base_summary today sessions with
  | Except.error e => Except.error e
  | Except.ok result =>
    match profile with
    | none => Except.error PyError.attributeError
    | some p => cohort_stage p hf365 gym result

/-- A well-formed workout record: an ISO-dated session carrying a
non-missing duration, from a pair (day number, duration). -/
def mkSession (rec : Int × ℚ) : Session :=
  { workout_date := StoredDate.iso rec.1, total_duration_minutes := some rec.2 }

/-- The first character of a string, upper-cased (what the pandas chain
`.astype(str).str[0].str.upper()` extracts), or `none` for empty text. -/
def firstUpper (s : String) : Option Char :=
  s.data.head?.map Char.toUpper

/-- The numeric value Python's `float` would extract from a cell, or `none`
when the cell is missing or `float` would raise. -/
def numValue : Entry → Option ℚ
  | Entry.null => none
  | Entry.num q => some q
  | Entry.text p => p

/-- The total minutes the engine computes from a batch of (day, duration)
records: `total = sum(durations)`. -/
def totalOf (recs : List (Int × ℚ)) : ℚ := (recs.map Prod.snd).sum

/-- The weekly-equivalent volume the engine computes:
`weekly = total * 7 / span`. -/
def weeklyOf (recs : List (Int × ℚ)) : ℚ :=
  totalOf recs * 7 / ((spanOf (recs.map Prod.fst) : Int) : ℚ)

/-- The summary the history part produces on a non-empty batch of
well-formed records, field for field. -/
def summaryOf (recs : List (Int × ℚ)) : FitnessSummary :=
  { has_data := true,
    total_minutes_30d := some (totalOf recs),
    avg_duration := some (totalOf recs / (recs.length : ℚ)),
    weekly_minutes := some (weeklyOf recs),
    current_score := some (current_score_of (weeklyOf recs)),
    projected_score := some (projected_score_of (current_score_of (weeklyOf recs))),
    cohort_label := none, hf365_percentile := none, gym_percentile := none }

/-- The arithmetic core of `percentile_rank` on an already-cleaned numeric
sample: `None` on the empty sample, otherwise
`100 * count(x <= value) / len`. -/
def pctOf (cleaned : List ℚ) (value : ℚ) : Option ℚ :=
  if cleaned.isEmpty then none
  else
    some (100 * ((cleaned.filter (fun x => decide (x ≤ value))).length : ℚ) /
      (cleaned.length : ℚ))

/-! ## Helper lemmas about `percentile_rank` -/

theorem notnull_num (q : ℚ) : notnull (Entry.num q) = true := rfl

theorem numValue_entryOf (o : Option ℚ) : numValue (entryOf o) = o := by
  cases o <;> rfl

/-- Cleaning a purely numeric series succeeds and returns it unchanged. -/
theorem cleanSeries_map_num (S : List ℚ) :
    cleanSeries (S.map Entry.num) = Except.ok S := by
  induction S with
  | nil => rfl
  | cons q t ih =>
    simp only [cleanSeries] at ih ⊢
    simp [List.filter_cons, notnull, mapExcept, floatOf, ih]

/-- Cleaning a series with no non-numeric text succeeds, keeping exactly
the numeric values. -/
theorem cleanSeries_of_no_badtext (S : List Entry)
    (h : ∀ e ∈ S, e ≠ Entry.text none) :
    cleanSeries S = Except.ok (S.filterMap numValue) := by
  induction S with
  | nil => rfl
  | cons a t ih =>
    have ht : ∀ e ∈ t, e ≠ Entry.text none := fun e he =>
      h e (List.mem_cons_of_mem _ he)
    have ih' := ih ht
    simp only [cleanSeries] at ih' ⊢
    cases a with
    | null => simpa [List.filter_cons, notnull, List.filterMap_cons, numValue] using ih'
    | num q => simp [List.filter_cons, notnull, mapExcept, floatOf, ih',
        List.filterMap_cons, numValue]
    | text p =>
      cases p with
      | none => exact absurd rfl (h _ (List.mem_cons_self _ _))
      | some q => simp [List.filter_cons, notnull, mapExcept, floatOf, ih',
          List.filterMap_cons, numValue]

/-- A non-numeric text cell anywhere in the series makes the cleaning step
raise `ValueError`. -/
theorem cleanSeries_of_badtext (S : List Entry)
    (h : Entry.text none ∈ S) :
    cleanSeries S = Except.error PyError.valueError := by
  induction S with
  | nil => cases h
  | cons a t ih =>
    simp only [cleanSeries] at ih ⊢
    rcases List.mem_cons.mp h with h1 | h2
    · subst h1
      simp [List.filter_cons, notnull, mapExcept, floatOf]
    · cases a with
      | null => simpa [List.filter_cons, notnull] using ih h2
      | num q =>
        have := ih h2
        simp [List.filter_cons, notnull, mapExcept, floatOf, this]
      | text p =>
        cases p with
        | none => simp [List.filter_cons, notnull, mapExcept, floatOf]
        | some q =>
          have := ih h2
          simp [List.filter_cons, notnull, mapExcept, floatOf, this]

/-- Applying `percentile_rank` to a column of optional numeric cells never raises
and computes the formula over the present values. -/
theorem percentile_rank_entryOf (f : α → Option ℚ) (l : List α) (v : ℚ) :
    percentile_rank (l.map (fun x => entryOf (f x))) v =
      Except.ok (pctOf (l.filterMap f) v) := by
  have hclean : cleanSeries (l.map (fun x => entryOf (f x))) =
      Except.ok ((l.map (fun x => entryOf (f x))).filterMap numValue) := by
    refine cleanSeries_of_no_badtext _ ?_
    intro e he
    rcases List.mem_map.mp he with ⟨x, _, hx⟩
    subst hx
    cases hfx : f x <;> simp [entryOf, hfx]
  have hfm : (l.map (fun x => entryOf (f x))).filterMap numValue = l.filterMap f := by
    rw [List.filterMap_map]
    congr 1
    funext x
    simp [Function.comp, numValue_entryOf]
  rw [hfm] at hclean
  simp only [percentile_rank, hclean, pctOf]
  split <;> rfl

/-! ## Helper lemmas about the history part -/

theorem filterMap_durations (recs : List (Int × ℚ)) :
    (recs.map mkSession).filterMap (fun s => s.total_duration_minutes) =
      recs.map Prod.snd := by
  induction recs with
  | nil => rfl
  | cons r t ih => simp [mkSession, List.filterMap_cons, ih]

theorem mapExcept_parseISO_map (recs : List (Int × ℚ)) :
    mapExcept (fun s => parseISO s.workout_date) (recs.map mkSession) =
      Except.ok (recs.map Prod.fst) := by
  induction recs with
  | nil => rfl
  | cons r t ih =>
    simp only [List.map_cons, mapExcept]
    rw [ih]
    rfl

theorem mapExcept_parseISO_bad (l : List Session)
    (h : ∃ s ∈ l, ∃ b, s.workout_date = StoredDate.bad b) :
    mapExcept (fun s => parseISO s.workout_date) l =
      Except.error PyError.valueError := by
  induction l with
  | nil =>
    rcases h with ⟨s, hs, _⟩
    cases hs
  | cons a t ih =>
    rcases h with ⟨s, hs, b, hb⟩
    rcases List.mem_cons.mp hs with h1 | h2
    · subst h1
      simp [mapExcept, hb, parseISO]
    · cases hd : a.workout_date with
      | iso d =>
        have hrec := ih ⟨s, h2, b, hb⟩
        simp only [mapExcept]
        rw [hd, hrec]
        rfl
      | bad bb =>
        simp only [mapExcept]
        rw [hd]
        rfl

theorem keepRow_mkSession (today : Int) (rec : Int × ℚ) :
    keepRow today (mkSession rec) = decide (today - 30 ≤ rec.1) := by
  simp [keepRow, mkSession, sqlDateGe]

/-- Evaluation of the history part on a non-empty batch of well-formed
in-window records. -/
theorem base_summary_eval (today : Int) (recs : List (Int × ℚ))
    (hne : recs ≠ []) (hwin : ∀ rec ∈ recs, today - 30 ≤ rec.1) :
    base_summary today (recs.map mkSession) = Except.ok (summaryOf recs) := by
  cases recs with
  | nil => exact absurd rfl hne
  | cons r t =>
    have hfilter : ((r :: t).map mkSession).filter (keepRow today) =
        mkSession r :: t.map mkSession := by
      rw [List.map_cons, List.filter_eq_self]
      intro s hs
      rcases List.mem_cons.mp hs with h1 | h2
      · subst h1
        rw [keepRow_mkSession]
        exact decide_eq_true (hwin r (List.mem_cons_self _ _))
      · rcases List.mem_map.mp h2 with ⟨rec, hrec, hmk⟩
        subst hmk
        rw [keepRow_mkSession]
        exact decide_eq_true (hwin rec (List.mem_cons_of_mem _ hrec))
    have hdur := filterMap_durations (r :: t)
    have hdates := mapExcept_parseISO_map (r :: t)
    simp only [List.map_cons] at hdur hdates
    unfold base_summary
    rw [hfilter]
    simp only [hdur, hdates]
    simp only [summaryOf, totalOf, weeklyOf, List.map_cons, List.length_map,
      List.length_cons]


/-! ## Helper lemmas about the cohort part -/

/-- The HF365 comparison never raises and only (possibly) sets the
`hf365_percentile` key. -/
theorem hfStage_shape (a : Int) (g : String) (w : ℚ)
    (hf : Option (List DataRow)) (r1 : FitnessSummary) :
    ∃ pc, hfStage a g w hf r1 =
      Except.ok { r1 with hf365_percentile := pc } := by
  rcases hf with _ | df
  · exact ⟨r1.hf365_percentile, rfl⟩
  · by_cases hemp : (selectCohort df a g).isEmpty = true
    · refine ⟨r1.hf365_percentile, ?_⟩
      unfold hfStage
      simp only []
      rw [if_pos hemp]
    · refine ⟨some (pctOf ((selectCohort df a g).filterMap (fun row => row.metric))
          (w / 7)), ?_⟩
      unfold hfStage
      simp only []
      rw [if_neg hemp, percentile_rank_entryOf]

/-- The gym comparison never raises and only (possibly) sets the
`gym_percentile` key. -/
theorem gymStage_shape (a : Int) (g : String)
    (gym : Option (List DataRow)) (r2 : FitnessSummary) :
    ∃ pc, gymStage a g gym r2 =
      Except.ok { r2 with gym_percentile := pc } := by
  rcases gym with _ | df
  · exact ⟨r2.gym_percentile, rfl⟩
  · rcases r2 with ⟨hd, tm, ad, wm, cs, ps, cl, hp, gp⟩
    rcases ad with _ | av
    · exact ⟨gp, rfl⟩
    · by_cases hgd : (!(selectCohort df a g).isEmpty && av != 0) = true
      · refine ⟨some (pctOf ((selectCohort df a g).filterMap
            (fun row => row.metric.map (fun h => h * 60))) av), ?_⟩
        unfold gymStage
        simp only []
        rw [if_pos hgd, percentile_rank_entryOf]
      · refine ⟨gp, ?_⟩
        unfold gymStage
        simp only []
        rw [if_neg hgd]

/-- When the profile/weekly guard passes, the cohort part sets the label
and possibly the two percentile keys, and never raises. -/
theorem cohort_stage_guard_true (hf gym : Option (List DataRow))
    (b : FitnessSummary) (a : Int) (g : String) (w : ℚ)
    (hw : b.weekly_minutes = some w)
    (hguard : (a != 0 && g != "" && w != 0) = true) :
    ∃ pc1 pc2, cohort_stage ⟨some a, some g⟩ hf gym b =
      Except.ok
        { b with
          cohort_label := some (labelFor a g),
          hf365_percentile := pc1,
          gym_percentile := pc2 } := by
  rcases b with ⟨hd, tm, ad, wm, cs, ps, cl, hp, gp⟩
  simp only at hw
  subst hw
  obtain ⟨pc1, h1⟩ := hfStage_shape a g w hf
    { has_data := hd, total_minutes_30d := tm, avg_duration := ad,
      weekly_minutes := some w, current_score := cs, projected_score := ps,
      cohort_label := some (labelFor a g), hf365_percentile := hp,
      gym_percentile := gp }
  obtain ⟨pc2, h2⟩ := gymStage_shape a g gym
    { has_data := hd, total_minutes_30d := tm, avg_duration := ad,
      weekly_minutes := some w, current_score := cs, projected_score := ps,
      cohort_label := some (labelFor a g), hf365_percentile := pc1,
      gym_percentile := gp }
  refine ⟨pc1, pc2, ?_⟩
  unfold cohort_stage
  simp only []
  rw [if_pos hguard]
  rw [h1]
  exact h2

/-- When the guard fails (absent profile field, zero age, empty gender,
absent or zero weekly volume), the cohort part leaves the result dict
untouched. -/
theorem cohort_stage_guard_false (p : Profile) (hf gym : Option (List DataRow))
    (b : FitnessSummary)
    (h : p.age = none ∨ p.gender = none ∨ b.weekly_minutes = none ∨
      ∃ a g w, p.age = some a ∧ p.gender = some g ∧ b.weekly_minutes = some w ∧
        (a != 0 && g != "" && w != 0) = false) :
    cohort_stage p hf gym b = Except.ok b := by
  rcases p with ⟨page, pgender⟩
  rcases h with h | h | h | ⟨a, g, w, ha, hg, hw, hguard⟩
  · simp only at h
    subst h
    rfl
  · simp only at h
    subst h
    rcases page with _ | a <;> rfl
  · rcases b with ⟨hd, tm, ad, wm, cs, ps, cl, hp, gp⟩
    simp only at h
    subst h
    rcases page with _ | a <;> rcases pgender with _ | g <;> rfl
  · simp only at ha hg
    subst ha
    subst hg
    rcases b with ⟨hd, tm, ad, wm, cs, ps, cl, hp, gp⟩
    simp only at hw
    subst hw
    unfold cohort_stage
    simp only []
    rw [hguard]
    rfl

/-- The cohort part never raises and never changes the history-derived
fields of the result dict. -/
theorem cohort_stage_shape (p : Profile) (hf gym : Option (List DataRow))
    (b : FitnessSummary) :
    ∃ lbl pc1 pc2, cohort_stage p hf gym b =
      Except.ok
        { b with
          cohort_label := lbl,
          hf365_percentile := pc1,
          gym_percentile := pc2 } := by
  rcases hpa : p.age with _ | a
  · exact ⟨b.cohort_label, b.hf365_percentile, b.gym_percentile,
      cohort_stage_guard_false p hf gym b (Or.inl hpa)⟩
  rcases hpg : p.gender with _ | g
  · exact ⟨b.cohort_label, b.hf365_percentile, b.gym_percentile,
      cohort_stage_guard_false p hf gym b (Or.inr (Or.inl hpg))⟩
  rcases hw : b.weekly_minutes with _ | w
  · refine ⟨b.cohort_label, b.hf365_percentile, b.gym_percentile, ?_⟩
    rw [← hw]
    exact cohort_stage_guard_false p hf gym b (Or.inr (Or.inr (Or.inl hw)))
  by_cases hguard : (a != 0 && g != "" && w != 0) = true
  · have hp : p = ⟨some a, some g⟩ := by
      rcases p with ⟨page, pgender⟩
      simp only at hpa hpg
      rw [hpa, hpg]
    obtain ⟨pc1, pc2, hcs⟩ := cohort_stage_guard_true hf gym b a g w hw hguard
    rw [hw] at hcs
    rw [hp]
    exact ⟨some (labelFor a g), pc1, pc2, hcs⟩
  · refine ⟨b.cohort_label, b.hf365_percentile, b.gym_percentile, ?_⟩
    rw [← hw]
    exact cohort_stage_guard_false p hf gym b (Or.inr (Or.inr (Or.inr
      ⟨a, g, w, hpa, hpg, hw, Bool.not_eq_true _ |>.mp hguard⟩)))

/-! ## Claim theorems -/

/-- C1: for every non-empty numeric sample `S` and probe `v`,
`percentile_rank` returns `100 * |{x ∈ S : x ≤ v}| / |S|`; consequently the
result lies in `[0,100]`, the maximum of the sample ranks at `100`, any
probe strictly below every element ranks at `0`, and the empty sample
yields `None` (undefined), not zero. -/
theorem C1_percentile_rank_spec (S : List ℚ) (v : ℚ) (hS : S ≠ []) :
    percentile_rank (S.map Entry.num) v =
      Except.ok (some (100 * ((S.filter (fun x => decide (x ≤ v))).length : ℚ) /
        (S.length : ℚ))) ∧
    (∀ r : ℚ, percentile_rank (S.map Entry.num) v = Except.ok (some r) →
      0 ≤ r ∧ r ≤ 100) ∧
    (∀ M, M ∈ S → (∀ x ∈ S, x ≤ M) →
      percentile_rank (S.map Entry.num) M = Except.ok (some 100)) ∧
    (∀ m : ℚ, (∀ x ∈ S, m < x) →
      percentile_rank (S.map Entry.num) m = Except.ok (some 0)) ∧
    percentile_rank ([] : List Entry) v = Except.ok none := by
  have hlen0 : S.length ≠ 0 := fun h => hS (List.length_eq_zero.mp h)
  have hlenq : ((S.length : ℚ)) ≠ 0 := Nat.cast_ne_zero.mpr hlen0
  have hlenpos : (0 : ℚ) < (S.length : ℚ) := by
    have : 0 < S.length := Nat.pos_of_ne_zero hlen0
    exact_mod_cast this
  have hempty : S.isEmpty = false := by
    cases S with
    | nil => exact absurd rfl hS
    | cons a t => rfl
  have heval : ∀ u : ℚ, percentile_rank (S.map Entry.num) u =
      Except.ok (some (100 * ((S.filter (fun x => decide (x ≤ u))).length : ℚ) /
        (S.length : ℚ))) := by
    intro u
    unfold percentile_rank
    rw [cleanSeries_map_num]
    simp only [hempty]
    rfl
  refine ⟨heval v, ?_, ?_, ?_, rfl⟩
  · intro r hr
    rw [heval v] at hr
    simp only [Except.ok.injEq, Option.some.injEq] at hr
    subst hr
    constructor
    · positivity
    · rw [div_le_iff₀ hlenpos]
      have hcnt : ((S.filter (fun x => decide (x ≤ v))).length : ℚ) ≤ (S.length : ℚ) := by
        exact_mod_cast List.length_filter_le _ _
      linarith
  · intro M hM hle
    rw [heval M]
    have hfe : S.filter (fun x => decide (x ≤ M)) = S :=
      List.filter_eq_self.mpr (fun a ha => decide_eq_true (hle a ha))
    rw [hfe, mul_div_assoc, div_self hlenq, mul_one]
  · intro m hm
    rw [heval m]
    have hfe : S.filter (fun x => decide (x ≤ m)) = [] :=
      List.filter_eq_nil_iff.mpr (fun a ha => by
        simp only [decide_eq_true_eq]
        exact not_le.mpr (hm a ha))
    rw [hfe]
    simp

/-- Concrete instance of C1 at `S = [30, 45, 60]`, `v = 45`. -/
theorem C1_percentile_rank_spec_witness :
    percentile_rank ([(30 : ℚ), 45, 60].map Entry.num) 45 =
      Except.ok (some (100 * (([(30 : ℚ), 45, 60].filter
        (fun x => decide (x ≤ 45))).length : ℚ) / ((3 : ℕ) : ℚ))) ∧
    percentile_rank ([(30 : ℚ), 45, 60].map Entry.num) 60 = Except.ok (some 100) ∧
    percentile_rank ([(30 : ℚ), 45, 60].map Entry.num) 29 = Except.ok (some 0) := by
  refine ⟨?_, ?_, ?_⟩
  · have h := (C1_percentile_rank_spec [(30 : ℚ), 45, 60] 45 (by decide)).1
    simpa using h
  · exact (C1_percentile_rank_spec [(30 : ℚ), 45, 60] 45 (by decide)).2.2.1
      60 (by decide) (by decide)
  · exact (C1_percentile_rank_spec [(30 : ℚ), 45, 60] 45 (by decide)).2.2.2.1
      29 (by decide)

/-- The pandas gender test against a single-character code succeeds exactly
when the stored text has a first character whose upper-case form is that
code. -/
theorem genderMatches_single (stored : String) (c : Char) :
    genderMatches stored (String.mk [c]) = true ↔ firstUpper stored = some c := by
  unfold genderMatches firstUpper
  cases hd : stored.data with
  | nil => simp
  | cons ch rest =>
    simp only [List.head?_cons, Option.map_some, Option.some.injEq, beq_iff_eq]
    constructor
    · intro h
      have h2 : ([ch.toUpper] : List Char) = [c] := congrArg String.data h
      simpa using h2
    · intro h
      have h2 : ch.toUpper = c := by simpa using h
      rw [h2]

/-- C4: a reference row is selected into the cohort iff its age lies in the
closed window `[age-2, age+2]` and the first character of its stored gender
text, upper-cased, equals the single-character gender code; rows at exactly
`age-2` / `age+2` are included and rows at `age-3` / `age+3` are excluded,
regardless of the case or length of the stored gender text. -/
theorem C4_cohort_membership (df : List DataRow) (row : DataRow)
    (a : Int) (c : Char) :
    (row ∈ selectCohort df a (String.mk [c]) ↔
      row ∈ df ∧ ((a : ℚ) - 2 ≤ row.age ∧ row.age ≤ (a : ℚ) + 2) ∧
        firstUpper row.gender = some c) ∧
    (row ∈ df → firstUpper row.gender = some c →
      (row.age = (a : ℚ) - 2 ∨ row.age = (a : ℚ) + 2) →
      row ∈ selectCohort df a (String.mk [c])) ∧
    ((row.age = (a : ℚ) - 3 ∨ row.age = (a : ℚ) + 3) →
      row ∉ selectCohort df a (String.mk [c])) := by
  have hmem : row ∈ selectCohort df a (String.mk [c]) ↔
      row ∈ df ∧ ((a : ℚ) - 2 ≤ row.age ∧ row.age ≤ (a : ℚ) + 2) ∧
        firstUpper row.gender = some c := by
    unfold selectCohort
    rw [List.mem_filter]
    simp [Bool.and_eq_true, decide_eq_true_eq, genderMatches_single, and_assoc]
  refine ⟨hmem, ?_, ?_⟩
  · intro hrow hg hedge
    refine hmem.mpr ⟨hrow, ⟨?_, ?_⟩, hg⟩ <;> rcases hedge with h | h <;> rw [h] <;> linarith
  · intro hedge hsel
    obtain ⟨-, ⟨h1, h2⟩, -⟩ := hmem.mp hsel
    rcases hedge with h | h <;> rw [h] at h1 h2 <;> linarith

/-- Concrete instance of C4: a row aged exactly `age-2` with gender stored
as lower-case text "male" is selected for code M; a row aged `age+3` is
not. -/
theorem C4_cohort_membership_witness :
    (⟨23, "male", some 5⟩ : DataRow) ∈
      selectCohort [⟨23, "male", some 5⟩] 25 (String.mk ['M']) ∧
    (⟨28, "M", some 5⟩ : DataRow) ∉
      selectCohort [⟨28, "M", some 5⟩, ⟨23, "male", some 5⟩] 25 (String.mk ['M']) := by
  constructor
  · exact (C4_cohort_membership [⟨23, "male", some 5⟩] ⟨23, "male", some 5⟩ 25 'M').2.1
      (by decide) (by decide) (Or.inl (by norm_num))
  · exact (C4_cohort_membership [⟨28, "M", some 5⟩, ⟨23, "male", some 5⟩]
      ⟨28, "M", some 5⟩ 25 'M').2.2 (Or.inr (by norm_num))

/-- C2: over any non-empty batch of in-window records with non-missing
durations, the summary reports `total = sum(durations)`,
`avg = total / count`, and `weekly = total * 7 / span` with
`span = max(latest - earliest + 1, 1)` (computed by `spanOf`); in
particular durations `[30, 45, 60]` on dates spanning 10 days yield
`total = 135`, `avg = 45`, `weekly = 94.5`. -/
theorem C2_summary_fields (p : Profile) (hf gym : Option (List DataRow))
    (today : Int) (recs : List (Int × ℚ)) (hne : recs ≠ [])
    (hwin : ∀ rec ∈ recs, today - 30 ≤ rec.1) :
    (∃ r, compute_fitness_summary (some p) today (recs.map mkSession) hf gym =
        Except.ok r ∧
      r.has_data = true ∧
      r.total_minutes_30d = some (totalOf recs) ∧
      r.avg_duration = some (totalOf recs / (recs.length : ℚ)) ∧
      r.weekly_minutes = some (totalOf recs * 7 /
        ((spanOf (recs.map Prod.fst) : Int) : ℚ))) ∧
    totalOf [((80 : Int), (30 : ℚ)), (85, 45), (89, 60)] = 135 ∧
    totalOf [((80 : Int), (30 : ℚ)), (85, 45), (89, 60)] / 3 = 45 ∧
    spanOf ([((80 : Int), (30 : ℚ)), (85, 45), (89, 60)].map Prod.fst) = 10 ∧
    weeklyOf [((80 : Int), (30 : ℚ)), (85, 45), (89, 60)] = 189 / 2 := by
  refine ⟨?_, by norm_num [totalOf], by norm_num [totalOf],
    by norm_num [spanOf, pyMax, pyMin],
    by norm_num [weeklyOf, totalOf, spanOf, pyMax, pyMin]⟩
  have hbase := base_summary_eval today recs hne hwin
  obtain ⟨lbl, pc1, pc2, hcs⟩ := cohort_stage_shape p hf gym (summaryOf recs)
  refine ⟨{ summaryOf recs with
              cohort_label := lbl,
              hf365_percentile := pc1,
              gym_percentile := pc2 }, ?_, rfl, rfl, rfl, rfl⟩
  unfold compute_fitness_summary
  rw [hbase]
  exact hcs

/-- Concrete instance of C2: Scenario B of the spec. -/
theorem C2_summary_fields_witness :
    ∃ r, compute_fitness_summary (some ⟨some 25, some "M"⟩) 100
        ([((80 : Int), (30 : ℚ)), (85, 45), (89, 60)].map mkSession) none none =
      Except.ok r ∧
      r.has_data = true ∧
      r.total_minutes_30d = some (totalOf [((80 : Int), (30 : ℚ)), (85, 45), (89, 60)]) ∧
      r.avg_duration = some (totalOf [((80 : Int), (30 : ℚ)), (85, 45), (89, 60)] /
        (([((80 : Int), (30 : ℚ)), (85, 45), (89, 60)] : List (Int × ℚ)).length : ℚ)) ∧
      r.weekly_minutes = some (totalOf [((80 : Int), (30 : ℚ)), (85, 45), (89, 60)] * 7 /
        ((spanOf ([((80 : Int), (30 : ℚ)), (85, 45), (89, 60)].map Prod.fst) : Int) : ℚ)) :=
  (C2_summary_fields ⟨some 25, some "M"⟩ none none 100
    [(80, 30), (85, 45), (89, 60)] (by decide) (by decide)).1

/-- C3: whenever the summary reports scores,
`current_score = min(10, weekly / 30)` and
`projected_score = min(10, current_score + 1)`; with non-negative durations
both scores lie in `[0, 10]`, and the score function is monotone
non-decreasing in the weekly volume. -/
theorem C3_scores (p : Profile) (hf gym : Option (List DataRow))
    (today : Int) (recs : List (Int × ℚ)) (hne : recs ≠ [])
    (hwin : ∀ rec ∈ recs, today - 30 ≤ rec.1)
    (hpos : ∀ rec ∈ recs, 0 ≤ rec.2) :
    (∃ r, compute_fitness_summary (some p) today (recs.map mkSession) hf gym =
        Except.ok r ∧
      r.current_score = some (current_score_of (weeklyOf recs)) ∧
      r.projected_score = some (projected_score_of (current_score_of (weeklyOf recs))) ∧
      0 ≤ current_score_of (weeklyOf recs) ∧
      current_score_of (weeklyOf recs) ≤ 10 ∧
      0 ≤ projected_score_of (current_score_of (weeklyOf recs)) ∧
      projected_score_of (current_score_of (weeklyOf recs)) ≤ 10) ∧
    (∀ w : ℚ, current_score_of w = min 10 (w / 30)) ∧
    (∀ s : ℚ, projected_score_of s = min 10 (s + 1)) ∧
    (∀ w1 w2 : ℚ, w1 ≤ w2 → current_score_of w1 ≤ current_score_of w2) := by
  have hw0 : 0 ≤ weeklyOf recs := by
    have htot : 0 ≤ totalOf recs := by
      apply List.sum_nonneg
      intro x hx
      rcases List.mem_map.mp hx with ⟨rec, hrec, hx2⟩
      subst hx2
      exact hpos rec hrec
    have hspan : (0 : ℚ) ≤ ((spanOf (recs.map Prod.fst) : Int) : ℚ) := by
      have h1 : (1 : Int) ≤ spanOf (recs.map Prod.fst) := le_max_right _ 1
      have : (0 : Int) ≤ spanOf (recs.map Prod.fst) := by linarith
      exact_mod_cast this
    unfold weeklyOf
    apply div_nonneg _ hspan
    linarith
  have hcs0 : 0 ≤ current_score_of (weeklyOf recs) := by
    unfold current_score_of
    apply le_min (by norm_num)
    positivity
  refine ⟨?_, fun w => rfl, fun s => rfl, ?_⟩
  · have hbase := base_summary_eval today recs hne hwin
    obtain ⟨lbl, pc1, pc2, hcs⟩ := cohort_stage_shape p hf gym (summaryOf recs)
    refine ⟨{ summaryOf recs with
                cohort_label := lbl,
                hf365_percentile := pc1,
                gym_percentile := pc2 }, ?_, rfl, rfl, hcs0, ?_, ?_, ?_⟩
    · unfold compute_fitness_summary
      rw [hbase]
      exact hcs
    · exact min_le_left _ _
    · unfold projected_score_of
      apply le_min (by norm_num)
      linarith
    · exact min_le_left _ _
  · intro w1 w2 h
    unfold current_score_of
    exact min_le_min (le_refl _) (by linarith)

/-- Concrete instance of C3 at Scenario B's records. -/
theorem C3_scores_witness :
    ∃ r, compute_fitness_summary (some ⟨some 25, some "M"⟩) 100
        ([((80 : Int), (30 : ℚ)), (85, 45), (89, 60)].map mkSession) none none =
      Except.ok r ∧
      r.current_score = some (current_score_of
        (weeklyOf [((80 : Int), (30 : ℚ)), (85, 45), (89, 60)])) ∧
      r.projected_score = some (projected_score_of (current_score_of
        (weeklyOf [((80 : Int), (30 : ℚ)), (85, 45), (89, 60)]))) ∧
      0 ≤ current_score_of (weeklyOf [((80 : Int), (30 : ℚ)), (85, 45), (89, 60)]) ∧
      current_score_of (weeklyOf [((80 : Int), (30 : ℚ)), (85, 45), (89, 60)]) ≤ 10 ∧
      0 ≤ projected_score_of (current_score_of
        (weeklyOf [((80 : Int), (30 : ℚ)), (85, 45), (89, 60)])) ∧
      projected_score_of (current_score_of
        (weeklyOf [((80 : Int), (30 : ℚ)), (85, 45), (89, 60)])) ≤ 10 :=
  (C3_scores ⟨some 25, some "M"⟩ none none 100
    [(80, 30), (85, 45), (89, 60)] (by decide) (by decide) (by decide)).1

/-- C5 counterexample: a single workout dated five days after today
(day 105 with today = 100) passes the SQL filter — the query has no upper
bound — and determines every derived field of the summary, whereas the
claim says a record dated after today contributes to none of them (here
the summary would have to report `has_data = false`). -/
theorem C5_counterexample :
    compute_fitness_summary (some ⟨none, none⟩) 100
        [⟨StoredDate.iso 105, some 30⟩] none none =
      Except.ok
        { has_data := true, total_minutes_30d := some 30, avg_duration := some 30,
          weekly_minutes := some 210, current_score := some 7, projected_score := some 8,
          cohort_label := none, hf365_percentile := none, gym_percentile := none } ∧
    compute_fitness_summary (some ⟨none, none⟩) 100 [] none none =
      Except.ok emptySummary ∧
    compute_fitness_summary (some ⟨none, none⟩) 100
        [⟨StoredDate.iso 105, some 30⟩] none none ≠
      compute_fitness_summary (some ⟨none, none⟩) 100 [] none none := by
  have hA : compute_fitness_summary (some ⟨none, none⟩) 100
      [⟨StoredDate.iso 105, some 30⟩] none none =
    Except.ok
      { has_data := true, total_minutes_30d := some 30, avg_duration := some 30,
        weekly_minutes := some 210, current_score := some 7, projected_score := some 8,
        cohort_label := none, hf365_percentile := none, gym_percentile := none } := by
    norm_num [compute_fitness_summary, base_summary, keepRow, sqlDateGe,
      mapExcept, parseISO, cohort_stage, hfStage, gymStage, spanOf, pyMax, pyMin,
      current_score_of, projected_score_of, emptySummary, List.filter,
      List.filterMap_cons, List.sum_cons, min_def]
  have hB : compute_fitness_summary (some ⟨none, none⟩) 100 [] none none =
      Except.ok emptySummary := rfl
  refine ⟨hA, hB, ?_⟩
  rw [hA, hB]
  simp [emptySummary]

/-- C5 amended: the engine considers exactly the records passing the SQL
clause `workout_date >= today - 30 AND total_duration_minutes IS NOT NULL`
(`keepRow`): records dated before the window start or lacking a duration
never contribute, but the clause has no upper bound, so any record dated
at or after the window start — including records dated after today —
does pass the filter. -/
theorem C5_amended (profile : Option Profile) (today : Int)
    (sessions : List Session) (hf gym : Option (List DataRow)) :
    compute_fitness_summary profile today sessions hf gym =
      compute_fitness_summary profile today (sessions.filter (keepRow today)) hf gym ∧
    (∀ d : Int, ∀ q : ℚ, d < today - 30 →
      keepRow today ⟨StoredDate.iso d, some q⟩ = false) ∧
    (∀ sd : StoredDate, keepRow today ⟨sd, none⟩ = false) ∧
    (∀ d : Int, ∀ q : ℚ, today - 30 ≤ d →
      keepRow today ⟨StoredDate.iso d, some q⟩ = true) := by
  refine ⟨?_, ?_, ?_, ?_⟩
  · have hbs : base_summary today sessions =
        base_summary today (sessions.filter (keepRow today)) := by
      unfold base_summary
      have hff : (sessions.filter (keepRow today)).filter (keepRow today) =
          sessions.filter (keepRow today) := by
        rw [List.filter_filter]
        simp [Bool.and_self]
      rw [hff]
    unfold compute_fitness_summary
    rw [hbs]
  · intro d q h
    simp [keepRow, sqlDateGe, not_le.mpr h]
  · intro sd
    simp [keepRow]
  · intro d q h
    simp [keepRow, sqlDateGe, h]

/-- Concrete instance of C5 amended: day 65 is dropped, day 105 is kept,
with today = 100. -/
theorem C5_amended_witness :
    compute_fitness_summary (some ⟨none, none⟩) 100
        [⟨StoredDate.iso 65, some 30⟩] none none =
      compute_fitness_summary (some ⟨none, none⟩) 100
        ([⟨StoredDate.iso 65, some 30⟩].filter (keepRow 100)) none none ∧
    keepRow 100 ⟨StoredDate.iso 65, some 30⟩ = false ∧
    keepRow 100 ⟨StoredDate.iso 105, some 30⟩ = true :=
  ⟨(C5_amended (some ⟨none, none⟩) 100 [⟨StoredDate.iso 65, some 30⟩] none none).1,
   (C5_amended (some ⟨none, none⟩) 100 [] none none).2.1 65 30 (by decide),
   (C5_amended (some ⟨none, none⟩) 100 [] none none).2.2.2 105 30 (by decide)⟩

/-- C6: the claim is right and the code is wrong.  When the profile row is
absent (`get_user_profile` returns `None`), `compute_fitness_summary`
raises `AttributeError` at `profile.get("age")` instead of returning a
summary — for any history state — contradicting the spec's "absence is
never an exception".  With a present profile whose age/gender are missing,
the summary is produced with the cohort fields omitted, as the claim
says. -/
theorem C6_absent_profile_raises :
    compute_fitness_summary none 100 [⟨StoredDate.iso 95, some 30⟩] none none =
      Except.error PyError.attributeError ∧
    compute_fitness_summary none 100 [] none none =
      Except.error PyError.attributeError ∧
    compute_fitness_summary (some ⟨none, none⟩) 100
        [⟨StoredDate.iso 95, some 30⟩] none none =
      Except.ok
        { has_data := true, total_minutes_30d := some 30, avg_duration := some 30,
          weekly_minutes := some 210, current_score := some 7, projected_score := some 8,
          cohort_label := none, hf365_percentile := none, gym_percentile := none } := by
  refine ⟨rfl, rfl, ?_⟩
  norm_num [compute_fitness_summary, base_summary, keepRow, sqlDateGe,
      mapExcept, parseISO, cohort_stage, hfStage, gymStage, spanOf, pyMax, pyMin,
      current_score_of, projected_score_of, emptySummary, List.filter,
      List.filterMap_cons, List.sum_cons, min_def]

/-- C7 counterexample: one record whose stored date is unparseable (but
passes the SQL text filter) makes the whole summary computation raise
`ValueError`; the remaining good record is not processed, whereas the
claim says the bad record is skipped and the summary (shown in the second
conjunct) is still produced. -/
theorem C7_counterexample :
    compute_fitness_summary (some ⟨none, none⟩) 100
        [⟨StoredDate.iso 95, some 30⟩, ⟨StoredDate.bad true, some 45⟩] none none =
      Except.error PyError.valueError ∧
    compute_fitness_summary (some ⟨none, none⟩) 100
        [⟨StoredDate.iso 95, some 30⟩] none none =
      Except.ok
        { has_data := true, total_minutes_30d := some 30, avg_duration := some 30,
          weekly_minutes := some 210, current_score := some 7, projected_score := some 8,
          cohort_label := none, hf365_percentile := none, gym_percentile := none } := by
  refine ⟨rfl, ?_⟩
  norm_num [compute_fitness_summary, base_summary, keepRow, sqlDateGe,
      mapExcept, parseISO, cohort_stage, hfStage, gymStage, spanOf, pyMax, pyMin,
      current_score_of, projected_score_of, emptySummary, List.filter,
      List.filterMap_cons, List.sum_cons, min_def]

/-- C7 amended: a fetched record with an unparseable stored date that
passes the SQL text filter aborts the whole summary computation with
`ValueError` (raised by `datetime.fromisoformat`); the record is not
skipped, no matter what the other records are. -/
theorem C7_amended (profile : Option Profile) (today : Int)
    (sessions : List Session) (hf gym : Option (List DataRow)) (q : ℚ)
    (hmem : (⟨StoredDate.bad true, some q⟩ : Session) ∈ sessions) :
    compute_fitness_summary profile today sessions hf gym =
      Except.error PyError.valueError := by
  have hkeep : keepRow today ⟨StoredDate.bad true, some q⟩ = true := by
    simp [keepRow, sqlDateGe]
  have hmemf : (⟨StoredDate.bad true, some q⟩ : Session) ∈
      sessions.filter (keepRow today) := List.mem_filter.mpr ⟨hmem, hkeep⟩
  have hbase : base_summary today sessions = Except.error PyError.valueError := by
    unfold base_summary
    cases hf2 : sessions.filter (keepRow today) with
    | nil =>
      rw [hf2] at hmemf
      cases hmemf
    | cons r rs =>
      rw [hf2] at hmemf
      have herr := mapExcept_parseISO_bad (r :: rs) ⟨_, hmemf, true, rfl⟩
      simp only [herr]
  unfold compute_fitness_summary
  rw [hbase]

/-- Concrete instance of C7 amended. -/
theorem C7_amended_witness :
    compute_fitness_summary (some ⟨some 25, some "M"⟩) 100
        [⟨StoredDate.iso 95, some 30⟩, ⟨StoredDate.bad true, some 45⟩] none none =
      Except.error PyError.valueError :=
  C7_amended (some ⟨some 25, some "M"⟩) 100
    [⟨StoredDate.iso 95, some 30⟩, ⟨StoredDate.bad true, some 45⟩] none none 45
    (by decide)

/-- C8 counterexample: a sample containing non-numeric text makes
`percentile_rank` raise `ValueError` (from `float(x)` — `pd.notnull` keeps
text), instead of discarding the entry; discarding would have produced the
second conjunct's value. -/
theorem C8_counterexample :
    percentile_rank [Entry.num 5, Entry.text none] 10 =
      Except.error PyError.valueError ∧
    percentile_rank [Entry.num 5] 10 = Except.ok (some 100) := by
  refine ⟨rfl, ?_⟩
  norm_num [percentile_rank, cleanSeries, mapExcept, floatOf, notnull,
    List.filter, pctOf]

/-- C8 amended: `percentile_rank` discards missing (`NaN`/`None`) entries
and computes over the remaining values (converting numeric text); but an
entry of non-numeric text is not discarded: `float` raises `ValueError`
and the call aborts. -/
theorem C8_amended (S : List Entry) (v : ℚ) :
    (percentile_rank (Entry.null :: S) v = percentile_rank S v) ∧
    ((∀ e ∈ S, e ≠ Entry.text none) →
      percentile_rank S v = Except.ok (pctOf (S.filterMap numValue) v)) ∧
    (Entry.text none ∈ S → percentile_rank S v = Except.error PyError.valueError) := by
  refine ⟨?_, ?_, ?_⟩
  · unfold percentile_rank cleanSeries
    rw [List.filter_cons_of_neg (by simp [notnull])]
  · intro h
    unfold percentile_rank
    rw [cleanSeries_of_no_badtext S h]
    simp only [pctOf, apply_ite Except.ok]
  · intro h
    unfold percentile_rank
    rw [cleanSeries_of_badtext S h]

/-- Concrete instance of C8 amended. -/
theorem C8_amended_witness :
    percentile_rank [Entry.null, Entry.num 5] 10 = percentile_rank [Entry.num 5] 10 ∧
    percentile_rank [Entry.num 5, Entry.null] 10 =
      Except.ok (pctOf ([Entry.num 5, Entry.null].filterMap numValue) 10) ∧
    percentile_rank [Entry.num 5, Entry.text none] 10 =
      Except.error PyError.valueError :=
  ⟨(C8_amended [Entry.num 5] 10).1,
   (C8_amended [Entry.num 5, Entry.null] 10).2.1 (by decide),
   (C8_amended [Entry.num 5, Entry.text none] 10).2.2 (by decide)⟩

/-- C9 counterexample: for the unrecognized gender code "X" the engine's
label says "females", not "users" — the conditional
`'males' if gender=='M' else 'females'` has no "users" branch. -/
theorem C9_counterexample :
    compute_fitness_summary (some ⟨some 25, some "X"⟩) 100
        [⟨StoredDate.iso 95, some 30⟩] none none =
      Except.ok
        { has_data := true, total_minutes_30d := some 30, avg_duration := some 30,
          weekly_minutes := some 210, current_score := some 7, projected_score := some 8,
          cohort_label := some "23–27yo females", hf365_percentile := none,
          gym_percentile := none } ∧
    labelFor 25 "X" ≠ "23–27yo users" := by
  constructor
  · norm_num [compute_fitness_summary, base_summary, keepRow, sqlDateGe,
      mapExcept, parseISO, cohort_stage, hfStage, gymStage, spanOf, pyMax, pyMin,
      current_score_of, projected_score_of, emptySummary, List.filter,
      List.filterMap_cons, List.sum_cons, min_def, labelFor]
    rw [if_neg (by decide : ¬("X" = "")), if_neg (by decide : ¬("X" = "M"))]
    rfl
  · decide

/-- C9 amended: whenever age, gender and weekly volume pass the truthiness
guard, the cohort label describes the age window `[age-2, age+2]` and uses
"males" for the code M and "females" for every other code (including
unrecognized ones) — there is no "users" fallback. -/
theorem C9_amended (hf gym : Option (List DataRow)) (today : Int)
    (recs : List (Int × ℚ)) (a : Int) (g : String)
    (hne : recs ≠ []) (hwin : ∀ rec ∈ recs, today - 30 ≤ rec.1)
    (ha : a ≠ 0) (hg : g ≠ "") (htot : totalOf recs ≠ 0) :
    ∃ r, compute_fitness_summary (some ⟨some a, some g⟩) today
        (recs.map mkSession) hf gym = Except.ok r ∧
      r.cohort_label = some (labelFor a g) ∧
      labelFor a g = toString (a - 2) ++ "–" ++ toString (a + 2) ++ "yo " ++
        (if g = "M" then "males" else "females") := by
  have hbase := base_summary_eval today recs hne hwin
  have hwne : weeklyOf recs ≠ 0 := by
    unfold weeklyOf
    have hspan : (0 : ℚ) < ((spanOf (recs.map Prod.fst) : Int) : ℚ) := by
      have h1 : (1 : Int) ≤ spanOf (recs.map Prod.fst) := le_max_right _ 1
      exact_mod_cast lt_of_lt_of_le Int.zero_lt_one h1
    exact div_ne_zero (mul_ne_zero htot (by norm_num)) (ne_of_gt hspan)
  have hguard : (a != 0 && g != "" && weeklyOf recs != 0) = true := by
    simp [bne_iff_ne, ha, hg, hwne]
  obtain ⟨pc1, pc2, hcs⟩ := cohort_stage_guard_true hf gym (summaryOf recs)
    a g (weeklyOf recs) rfl hguard
  refine ⟨{ summaryOf recs with
              cohort_label := some (labelFor a g),
              hf365_percentile := pc1,
              gym_percentile := pc2 }, ?_, rfl, rfl⟩
  unfold compute_fitness_summary
  rw [hbase]
  exact hcs

/-- Concrete instance of C9 amended at the unrecognized code "X". -/
theorem C9_amended_witness :
    ∃ r, compute_fitness_summary (some ⟨some 25, some "X"⟩) 100
        ([((95 : Int), (30 : ℚ))].map mkSession) none none = Except.ok r ∧
      r.cohort_label = some (labelFor 25 "X") ∧
      labelFor 25 "X" = toString (25 - 2 : Int) ++ "–" ++ toString (25 + 2 : Int) ++
        "yo " ++ (if "X" = "M" then "males" else "females") :=
  C9_amended none none 100 [(95, 30)] 25 "X" (by decide) (by decide)
    (by decide) (by decide) (by norm_num [totalOf])

/-- C10: a zero value is indistinguishable from an absent one in the
truthiness guards — if every in-window workout has duration 0 the summary
has `has_data = True` and `current_score = 0` but omits the cohort label
and both percentile keys even with a complete profile and loaded datasets;
likewise a profile age of 0 suppresses all cohort fields. -/
theorem C10_zero_treated_as_absent :
    (∀ (a : Int) (g : String) (hf gym : Option (List DataRow)) (today : Int)
      (recs : List (Int × ℚ)), recs ≠ [] →
      (∀ rec ∈ recs, today - 30 ≤ rec.1) →
      (∀ rec ∈ recs, rec.2 = 0) →
      ∃ r, compute_fitness_summary (some ⟨some a, some g⟩) today
          (recs.map mkSession) hf gym = Except.ok r ∧
        r.has_data = true ∧ r.current_score = some 0 ∧
        r.cohort_label = none ∧ r.hf365_percentile = none ∧
        r.gym_percentile = none) ∧
    (∀ (g : String) (hf gym : Option (List DataRow)) (today : Int)
      (recs : List (Int × ℚ)), recs ≠ [] →
      (∀ rec ∈ recs, today - 30 ≤ rec.1) →
      ∃ r, compute_fitness_summary (some ⟨some 0, some g⟩) today
          (recs.map mkSession) hf gym = Except.ok r ∧
        r.has_data = true ∧ r.cohort_label = none ∧
        r.hf365_percentile = none ∧ r.gym_percentile = none) := by
  constructor
  · intro a g hf gym today recs hne hwin hzero
    have hbase := base_summary_eval today recs hne hwin
    have htot : totalOf recs = 0 := by
      apply List.sum_eq_zero
      intro x hx
      rcases List.mem_map.mp hx with ⟨rec, hrec, hx2⟩
      subst hx2
      exact hzero rec hrec
    have hwk : weeklyOf recs = 0 := by
      unfold weeklyOf
      rw [htot]
      simp
    have hstage : cohort_stage ⟨some a, some g⟩ hf gym (summaryOf recs) =
        Except.ok (summaryOf recs) := by
      apply cohort_stage_guard_false
      refine Or.inr (Or.inr (Or.inr ⟨a, g, weeklyOf recs, rfl, rfl, rfl, ?_⟩))
      simp [hwk]
    refine ⟨summaryOf recs, ?_, rfl, ?_, rfl, rfl, rfl⟩
    · unfold compute_fitness_summary
      rw [hbase]
      exact hstage
    · show some (current_score_of (weeklyOf recs)) = some 0
      rw [hwk]
      norm_num [current_score_of, min_def]
  · intro g hf gym today recs hne hwin
    have hbase := base_summary_eval today recs hne hwin
    have hstage : cohort_stage ⟨some 0, some g⟩ hf gym (summaryOf recs) =
        Except.ok (summaryOf recs) := by
      apply cohort_stage_guard_false
      refine Or.inr (Or.inr (Or.inr ⟨0, g, weeklyOf recs, rfl, rfl, rfl, ?_⟩))
      simp
    refine ⟨summaryOf recs, ?_, rfl, rfl, rfl, rfl⟩
    unfold compute_fitness_summary
    rw [hbase]
    exact hstage

/-- Concrete instance of C10: one zero-duration workout with a complete
profile and non-empty matching cohorts in both datasets, and one age-0
profile with a real workout. -/
theorem C10_zero_treated_as_absent_witness :
    (∃ r, compute_fitness_summary (some ⟨some 25, some "M"⟩) 100
        ([((95 : Int), (0 : ℚ))].map mkSession)
        (some [⟨25, "M", some 10⟩]) (some [⟨25, "M", some 1⟩]) = Except.ok r ∧
      r.has_data = true ∧ r.current_score = some 0 ∧ r.cohort_label = none ∧
      r.hf365_percentile = none ∧ r.gym_percentile = none) ∧
    (∃ r, compute_fitness_summary (some ⟨some 0, some "M"⟩) 100
        ([((95 : Int), (30 : ℚ))].map mkSession)
        (some [⟨0, "M", some 10⟩]) (some [⟨0, "M", some 1⟩]) = Except.ok r ∧
      r.has_data = true ∧ r.cohort_label = none ∧
      r.hf365_percentile = none ∧ r.gym_percentile = none) :=
  ⟨C10_zero_treated_as_absent.1 25 "M" (some [⟨25, "M", some 10⟩])
      (some [⟨25, "M", some 1⟩]) 100 [(95, 0)] (by decide) (by decide) (by decide),
   C10_zero_treated_as_absent.2 "M" (some [⟨0, "M", some 10⟩])
      (some [⟨0, "M", some 1⟩]) 100 [(95, 30)] (by decide) (by decide)⟩
